import Mathlib

/-!
Verification of `gpu_load_cl.cpp`, an OpenCL GPU stress-load generator.

The development shallowly embeds the program:

* the OpenCL kernel `load_kernel` (its per-work-item recurrence) is embedded
  as a real-valued function, and a kernel dispatch as a fold of per-work-item
  buffer updates over an arbitrary scheduling order;
* `run_load_on_device` is embedded as a function from an abstract per-device
  backend (the error codes the OpenCL calls return) to the list of logged
  events and an exit status, with the steady-state loop driven by fuel;
* `main`'s platform/device enumeration and thread spawning are embedded over
  an abstract environment describing what the OpenCL queries return.

Machine `cl_int` error codes are modelled as `Int`; `CL_SUCCESS = 0`.
`float` arithmetic in the kernel is modelled over `ℝ` (exact reals).
-/

namespace GpuLoadCl

/-! ## The kernel `load_kernel`

Source (kernelSource):
```
__kernel void load_kernel(__global float* data, const int count) {
    int id = get_global_id(0);
    if (id < count) {
        float val = data[id];
        for (int i = 0; i < 1000; ++i) {
            val = val * sin((float)id * 0.01f + (float)i * 0.001f)
                + cos((float)id * 0.02f - (float)i * 0.002f);
            val = val / (1.0001f + fabs(val));
        }
        data[id] = val;
    }
}
```
-/

/-- The multiply-accumulate of one inner iteration:
`val * sin(id*0.01 + i*0.001) + cos(id*0.02 - i*0.002)`. -/
noncomputable def innerMac (id i : ℕ) (val : ℝ) : ℝ :=
  val * Real.sin ((id : ℝ) * 0.01 + (i : ℝ) * 0.001)
    + Real.cos ((id : ℝ) * 0.02 - (i : ℝ) * 0.002)

/-- One full inner iteration of the kernel loop: the multiply-accumulate
followed by the normalization `val / (1.0001 + fabs(val))`. -/
noncomputable def innerStep (id i : ℕ) (val : ℝ) : ℝ :=
  innerMac id i val / (1.0001 + |innerMac id i val|)

/-- The kernel's inner `for` loop: `kernelIter id n i v` performs `n` further
iterations on `val`, the loop counter currently standing at `i`. -/
noncomputable def kernelIter (id : ℕ) : ℕ → ℕ → ℝ → ℝ
  | 0, _, v => v
  | n + 1, i, v => kernelIter id n (i + 1) (innerStep id i v)

/-- The iteration count of the kernel's inner loop (`for (int i = 0; i < 1000; ++i)`). -/
def kernelIterCount : ℕ := 1000

/-- What one work item computes from its element: the inner loop run from
`i = 0` for the fixed 1000 iterations. -/
noncomputable def kernelCompute (id : ℕ) (v : ℝ) : ℝ :=
  kernelIter id kernelIterCount 0 v

/-- Reading element `i` of a buffer (out-of-range reads default to `0`;
the program never performs one since the work size equals the buffer size). -/
noncomputable def readAt (data : List ℝ) (i : ℕ) : ℝ :=
  (data[i]?).getD 0

/-- The effect of the work item with global id `id` on the buffer, for a
dispatch with element count `count` and inner iteration count `niter`:
guarded by `if (id < count)`, it overwrites `data[id]` with the recurrence
result and touches nothing else. -/
noncomputable def applyItem (niter count : ℕ) (data : List ℝ) (id : ℕ) : List ℝ :=
  if id < count then data.set id (kernelIter id niter 0 (readAt data id)) else data

/-- One kernel dispatch executed by running the work items in the scheduling
order `order` (the GPU may execute work items in any order). -/
noncomputable def runKernelOrder (niter count : ℕ) (order : List ℕ) (data : List ℝ) : List ℝ :=
  order.foldl (applyItem niter count) data

/-- `const size_t dataSizeElements = 1024 * 1024 * 8;` -/
def dataSizeElements : ℕ := 1024 * 1024 * 8

/-- The host-side initial buffer:
`host_data[i] = static_cast<float>(i % 100) + 0.1f` for `i < dataSizeElements`. -/
noncomputable def host_data : List ℝ :=
  (List.range dataSizeElements).map (fun i => ((i % 100 : ℕ) : ℝ) + 0.1)

/-! ## Error codes and `check_cl_error` -/

/-- `CL_SUCCESS` is `0` in the OpenCL headers. -/
def CL_SUCCESS : Int := 0

/-- `CL_DEVICE_NOT_FOUND` is `-1` in the OpenCL headers. -/
def CL_DEVICE_NOT_FOUND : Int := -1

/-- `check_cl_error(err, operation)` throws
`std::runtime_error(operation + " failed with error code " + err)` when
`err != CL_SUCCESS`. The thrown exception is modelled as `some (operation, err)`
(the pair determines the message string); success is `none`. -/
def check_cl_error (err : Int) (operation : String) : Option (String × Int) :=
  if err ≠ CL_SUCCESS then some (operation, err) else none

/-! ## The per-device runner `run_load_on_device`

The OpenCL backend for one device is abstracted by the error codes its calls
return; the runner is a function from that backend to the logged events and
the way the thread ends. The infinite `while (true)` loop is driven by fuel
(a bound on how many iterations we observe). -/

/-- Results of the OpenCL calls `run_load_on_device` makes on one device, in
program order. `enqueueErr k` / `finishErr k` are the results of
`clEnqueueNDRangeKernel` / `clFinish` on the `k`-th loop iteration. -/
structure DeviceBackend where
  deviceName : String
  createContextErr : Int
  createQueuePropsErr : Int
  createQueueLegacyErr : Int
  createProgramErr : Int
  buildProgramErr : Int
  buildLog : String
  createKernelErr : Int
  createBufferErr : Int
  setArgBufferErr : Int
  setArgCountErr : Int
  enqueueErr : ℕ → Int
  finishErr : ℕ → Int

/-- Diagnostic lines the runner writes (stdout/stderr), abstracted. -/
inductive Ev
  | startLoad (idx : ℕ) (name : String)
  | queueFallback (idx : ℕ) (err : Int)
  | buildLogDump (idx : ℕ) (log : String)
  | enterLoop (idx : ℕ)
  | enqueueFailMsg (idx : ℕ) (err : Int)
  | finishFailMsg (idx : ℕ) (err : Int)
  | exitLoopMsg (idx : ℕ)
  | cleanupMsg (idx : ℕ)
  deriving DecidableEq, Repr

/-- How the thread running `run_load_on_device` ends:
`exception` — a `std::runtime_error` from `check_cl_error` escapes the
function (and hence the `std::thread` start routine);
`loopExit n` — the steady-state loop hit `break` after `n` successful
`clEnqueueNDRangeKernel` submissions and the function returned normally;
`running` — no failure occurred within the observed fuel, the loop is still
going. -/
inductive RunnerExit
  | exception (f : String × Int)
  | loopExit (dispatches : ℕ)
  | running
  deriving DecidableEq, Repr

/-- The steady-state `while (true)` loop: enqueue the kernel, `break` on
failure; otherwise `clFinish`, `break` on failure; otherwise loop. Returns
the error events logged and `some n` when the loop exited after `n`
successful submissions (`none` if fuel ran out with the loop still running). -/
def runLoop (b : DeviceBackend) (idx : ℕ) : ℕ → ℕ → List Ev × Option ℕ
  | _, 0 => ([], none)
  | k, fuel + 1 =>
    if b.enqueueErr k ≠ CL_SUCCESS then
      ([Ev.enqueueFailMsg idx (b.enqueueErr k)], some k)
    else if b.finishErr k ≠ CL_SUCCESS then
      ([Ev.finishFailMsg idx (b.finishErr k)], some (k + 1))
    else
      runLoop b idx (k + 1) fuel

/-- The body of one device's worker thread, `run_load_on_device`, as a
function of its backend: the setup sequence (context, queue with legacy
fallback, program source, build with build-log dump on failure, kernel,
buffer, kernel args) with `check_cl_error` after each step, then the
steady-state loop and the cleanup messages. -/
def run_load_on_device (b : DeviceBackend) (idx : ℕ) (fuel : ℕ) : List Ev × RunnerExit :=
  let ev0 := [Ev.startLoad idx b.deviceName]
  match check_cl_error b.createContextErr "clCreateContext" with
  | some f => (ev0, .exception f)
  | none =>
    let queueErr :=
      if b.createQueuePropsErr ≠ CL_SUCCESS then b.createQueueLegacyErr
      else b.createQueuePropsErr
    let evq :=
      if b.createQueuePropsErr ≠ CL_SUCCESS then [Ev.queueFallback idx b.createQueuePropsErr]
      else []
    match check_cl_error queueErr "clCreateCommandQueue(WithProperties)" with
    | some f => (ev0 ++ evq, .exception f)
    | none =>
    match check_cl_error b.createProgramErr "clCreateProgramWithSource" with
    | some f => (ev0 ++ evq, .exception f)
    | none =>
    let evb :=
      if b.buildProgramErr ≠ CL_SUCCESS then [Ev.buildLogDump idx b.buildLog] else []
    match check_cl_error b.buildProgramErr "clBuildProgram" with
    | some f => (ev0 ++ evq ++ evb, .exception f)
    | none =>
    match check_cl_error b.createKernelErr "clCreateKernel" with
    | some f => (ev0 ++ evq ++ evb, .exception f)
    | none =>
    match check_cl_error b.createBufferErr "clCreateBuffer" with
    | some f => (ev0 ++ evq ++ evb, .exception f)
    | none =>
    match check_cl_error b.setArgBufferErr "clSetKernelArg(buffer)" with
    | some f => (ev0 ++ evq ++ evb, .exception f)
    | none =>
    match check_cl_error b.setArgCountErr "clSetKernelArg(count)" with
    | some f => (ev0 ++ evq ++ evb, .exception f)
    | none =>
      let evs := ev0 ++ evq ++ evb ++ [Ev.enterLoop idx]
      match runLoop b idx 0 fuel with
      | (levs, none) => (evs ++ levs, .running)
      | (levs, some n) =>
        (evs ++ levs ++ [Ev.exitLoopMsg idx, Ev.cleanupMsg idx], .loopExit n)

/-- A runner thread threw: its `std::runtime_error` escaped the callable
handed to `std::thread`. -/
def threadThrew (r : List Ev × RunnerExit) : Bool :=
  match r.2 with
  | .exception _ => true
  | _ => false

/-- C++ thread semantics: an exception escaping the function invoked by a
`std::thread` calls `std::terminate`, aborting the entire process — every
sibling thread included. The process survives only if no thread threw. -/
def processAborted (outcomes : List (List Ev × RunnerExit)) : Bool :=
  outcomes.any threadThrew

/-- All of the runner's setup calls succeed (the queue via either path). -/
def setupOk (b : DeviceBackend) : Prop :=
  b.createContextErr = CL_SUCCESS ∧
  (b.createQueuePropsErr = CL_SUCCESS ∨ b.createQueueLegacyErr = CL_SUCCESS) ∧
  b.createProgramErr = CL_SUCCESS ∧
  b.buildProgramErr = CL_SUCCESS ∧
  b.createKernelErr = CL_SUCCESS ∧
  b.createBufferErr = CL_SUCCESS ∧
  b.setArgBufferErr = CL_SUCCESS ∧
  b.setArgCountErr = CL_SUCCESS

instance (b : DeviceBackend) : Decidable (setupOk b) := by
  unfold setupOk; infer_instance

/-! ## `main`: platform/device enumeration and thread spawning -/

/-- Character-list prefix test (`==` on each character). -/
def headMatches : List Char → List Char → Bool
  | [], _ => true
  | _ :: _, [] => false
  | a :: as, b :: bs => a == b && headMatches as bs

/-- Does `needle` occur as a contiguous run somewhere in the list? -/
def occursIn (needle : List Char) : List Char → Bool
  | [] => headMatches needle []
  | b :: bs => headMatches needle (b :: bs) || occursIn needle bs

/-- `std::string(s).find(needle) != std::string::npos`. -/
def strFind (s needle : String) : Bool :=
  occursIn needle.toList s.toList

/-- The vendor filter from `main`: the platform vendor string contains
`"Intel"` or `"intel"`. -/
def vendorMatches (vendor : String) : Bool :=
  strFind vendor "Intel" || strFind vendor "intel"

/-- What the OpenCL queries report for one platform: its vendor string, the
result and count of the `clGetDeviceIDs` count query, and the result and
contents of the `clGetDeviceIDs` list query (device handles as `ℕ`). -/
structure PlatformInfo where
  vendor : String
  devCountErr : Int
  numDevices : ℕ
  devListErr : Int
  devices : List ℕ

/-- Warnings printed during enumeration. -/
inductive EnumEv
  | warnDevCount (vendor : String) (err : Int)
  deriving DecidableEq, Repr

/-- Enumeration of one platform (the loop body in `main`): non-matching
vendors are skipped; `CL_DEVICE_NOT_FOUND` on the count query means `continue`;
any other count-query failure logs a warning and `continue`s; with a positive
device count the list query runs under `check_cl_error` (its failure throws). -/
def enumPlatform (p : PlatformInfo) : Except (String × Int) (List ℕ × List EnumEv) :=
  if vendorMatches p.vendor then
    if p.devCountErr = CL_DEVICE_NOT_FOUND then .ok ([], [])
    else if p.devCountErr ≠ CL_SUCCESS then
      .ok ([], [EnumEv.warnDevCount p.vendor p.devCountErr])
    else if 0 < p.numDevices then
      match check_cl_error p.devListErr "clGetDeviceIDs (list)" with
      | some f => .error f
      | none => .ok (p.devices, [])
    else .ok ([], [])
  else .ok ([], [])

/-- The enumeration loop over all platforms, numbering them from `k`:
collects `(platform, device)` pairs in order; a thrown error aborts the
whole enumeration (it propagates to `main`'s catch). -/
def enumeratePlatforms : ℕ → List PlatformInfo → Except (String × Int) (List (ℕ × ℕ) × List EnumEv)
  | _, [] => .ok ([], [])
  | k, p :: ps =>
    match enumPlatform p with
    | .error f => .error f
    | .ok (devs, ws) =>
      match enumeratePlatforms (k + 1) ps with
      | .error f => .error f
      | .ok (rest, ws2) => .ok (devs.map (fun d => (k, d)) ++ rest, ws ++ ws2)

/-- What the environment reports to `main`: the platform count query's result
and count, the platform list query's result, and the per-platform data. -/
structure Env where
  platformCountErr : Int
  numPlatforms : ℕ
  platformListErr : Int
  platforms : List PlatformInfo

/-- How `main` ends (before/instead of joining worker threads):
`exitNoPlatforms` — the platform count query failed or reported zero, exit 1;
`exitCaught` — a `std::runtime_error` thrown during setup was caught by
`main`'s try/catch, exit 1;
`exitNoGpus` — the vendor filter yielded no devices, exit 1;
`spawned pairs` — one worker thread was started per pair and `main` blocks
joining them. -/
inductive MainOutcome
  | exitNoPlatforms
  | exitCaught (f : String × Int)
  | exitNoGpus
  | spawned (pairs : List (ℕ × ℕ))
  deriving DecidableEq, Repr

/-- The control flow of `main` up to thread spawning. -/
def runMain (e : Env) : MainOutcome :=
  if e.platformCountErr ≠ CL_SUCCESS ∨ e.numPlatforms = 0 then .exitNoPlatforms
  else
    match check_cl_error e.platformListErr "clGetPlatformIDs" with
    | some f => .exitCaught f
    | none =>
      match enumeratePlatforms 0 e.platforms with
      | .error f => .exitCaught f
      | .ok (pairs, _) =>
        if pairs.isEmpty then .exitNoGpus else .spawned pairs

/-- Number of worker threads `main` has started. -/
def threadsStarted : MainOutcome → ℕ
  | .spawned pairs => pairs.length
  | _ => 0

/-- The process exit status when `main` returns without joining threads
(`none` when workers were spawned and `main` blocks on `join`). -/
def earlyExitCode : MainOutcome → Option ℕ
  | .spawned _ => none
  | _ => some 1

/-- The diagnostic `main` prints on an early exit. -/
def mainMessage : MainOutcome → Option String
  | .exitNoPlatforms => some "Failed to find any OpenCL platforms or no platforms reported."
  | .exitCaught _ => some "OpenCL Runtime Error"
  | .exitNoGpus => some "No Intel GPUs found via OpenCL."
  | .spawned _ => none

/-- The spawned runners: thread `i` runs `run_load_on_device` on pair `i`
with device index `i` (`device_idx_counter` increments per spawn). -/
def spawnedRunners : MainOutcome → List (ℕ × (ℕ × ℕ))
  | .spawned pairs => pairs.enum
  | _ => []

/-- The handles a runner creates in its setup phase. Every successful
`clCreateContext` / command-queue creation / `clCreateBuffer` call returns a
fresh object, so the handles are tagged with the creating thread's device
index. -/
structure RunnerResources where
  ctx : ℕ × ℕ
  queue : ℕ × ℕ
  buffer : ℕ × ℕ
  deriving DecidableEq, Repr

/-- The resources thread `idx` creates for itself. -/
def runnerResources (idx : ℕ) : RunnerResources :=
  ⟨(idx, 0), (idx, 1), (idx, 2)⟩

/-! ## Concrete backends and environments used as witnesses -/

/-- A backend on which every OpenCL call succeeds. -/
def bAllOk : DeviceBackend :=
  ⟨"dev-ok", 0, 0, 0, 0, 0, "", 0, 0, 0, 0, fun _ => 0, fun _ => 0⟩

/-- A backend whose `clBuildProgram` fails with `-11`
(`CL_BUILD_PROGRAM_FAILURE`); everything else succeeds. -/
def bBuildFail : DeviceBackend :=
  ⟨"dev-buildfail", 0, 0, 0, 0, -11, "error: kernel did not compile", 0, 0, 0, 0,
    fun _ => 0, fun _ => 0⟩

/-- A backend on which `clCreateCommandQueueWithProperties` fails with `-35`
but the legacy `clCreateCommandQueue` succeeds; everything else succeeds. -/
def bQueueFallback : DeviceBackend :=
  ⟨"dev-fallback", 0, -35, 0, 0, 0, "", 0, 0, 0, 0, fun _ => 0, fun _ => 0⟩

/-- A backend that accepts the first dispatch and then fails the first
`clFinish` with `-36`; setup succeeds. -/
def bFinishFail : DeviceBackend :=
  ⟨"dev-finfail", 0, 0, 0, 0, 0, "", 0, 0, 0, 0, fun _ => 0,
    fun k => if k = 0 then -36 else 0⟩

/-! ### Numeric lemmas about the recurrence -/

theorem innerMac_denom_pos (id i : ℕ) (v : ℝ) : (0 : ℝ) < 1.0001 + |innerMac id i v| := by
  have h := abs_nonneg (innerMac id i v)
  nlinarith

theorem abs_innerStep_lt_one (id i : ℕ) (v : ℝ) : |innerStep id i v| < 1 := by
  unfold innerStep
  have hd := innerMac_denom_pos id i v
  rw [abs_div, abs_of_pos hd, div_lt_one hd]
  have h := abs_nonneg (innerMac id i v)
  nlinarith

theorem kernelIter_abs_lt_one (id : ℕ) (n : ℕ) :
    ∀ (i : ℕ) (v : ℝ), 1 ≤ n → |kernelIter id n i v| < 1 := by
  induction n with
  | zero => intro i v h; exact absurd h (by omega)
  | succ m ih =>
    intro i v _
    cases m with
    | zero => simpa [kernelIter] using abs_innerStep_lt_one id i v
    | succ k =>
      rw [show kernelIter id (k + 1 + 1) i v
          = kernelIter id (k + 1) (i + 1) (innerStep id i v) from rfl]
      exact ih (i + 1) (innerStep id i v) (by omega)

/-! ### Frame lemmas about a work item's buffer effect -/

theorem readAt_set_ne (d : List ℝ) (a b : ℕ) (x : ℝ) (h : a ≠ b) :
    readAt (d.set a x) b = readAt d b := by
  simp [readAt, List.getElem?_set_ne h]

theorem applyItem_comm (niter count : ℕ) (d : List ℝ) (a b : ℕ) :
    applyItem niter count (applyItem niter count d a) b
      = applyItem niter count (applyItem niter count d b) a := by
  by_cases hab : a = b
  · subst hab; rfl
  · unfold applyItem
    by_cases ha : a < count <;> by_cases hb : b < count <;>
      simp only [ha, hb, if_true, if_false, if_pos, if_neg, ite_true, ite_false]
    rw [readAt_set_ne d a b _ hab, readAt_set_ne d b a _ (Ne.symm hab)]
    exact List.set_comm _ _ _ hab

/-! ## Claims C2, C3, C7, C10 -/

/-- C2: the kernel recurrence is deterministic: with identical buffer
contents, element count, and the same inner iteration count, any two
executions of the dispatch — even with the work items scheduled in different
orders — produce identical output buffers. -/
theorem kernel_deterministic (niter count : ℕ) (data : List ℝ) (o₁ o₂ : List ℕ)
    (h : o₁.Perm o₂) :
    runKernelOrder niter count o₁ data = runKernelOrder niter count o₂ data :=
  h.foldl_eq' (fun x _ y _ z => applyItem_comm niter count z x y) data

/-- Witness for C2 at a concrete input: the 2-element dispatch run in the two
possible work-item orders gives the same buffer. -/
theorem kernel_deterministic_witness :
    runKernelOrder 1000 2 [0, 1] [(0 : ℝ), 1] = runKernelOrder 1000 2 [1, 0] [(0 : ℝ), 1] :=
  kernel_deterministic 1000 2 [(0 : ℝ), 1] [0, 1] [1, 0] (by decide)

/-- C3: for every work-item index and every (real-modelled, finite) input
value, the normalization denominator `1.0001 + fabs(val)` is strictly
positive at every inner iteration (the division is always well defined, no
NaN-producing operation occurs), and the value produced after the kernel's
1000 inner recurrence steps has absolute value below 1, hence is bounded —
never infinite. -/
theorem kernel_output_finite :
    (∀ (id i : ℕ) (v : ℝ), (0 : ℝ) < 1.0001 + |innerMac id i v|) ∧
    (∀ (id : ℕ) (v : ℝ), |kernelCompute id v| < 1) := by
  refine ⟨innerMac_denom_pos, fun id v => ?_⟩
  simpa [kernelCompute] using kernelIter_abs_lt_one id kernelIterCount 0 v (by decide)

/-- C7: the workload buffer's initial content is deterministic for the fixed
element count `1024*1024*8`: the buffer has exactly that many elements and
element `i` is `(i % 100) + 0.1`. -/
theorem host_data_seeded :
    host_data.length = 1024 * 1024 * 8 ∧
    ∀ i, i < dataSizeElements → host_data[i]? = some (((i % 100 : ℕ) : ℝ) + 0.1) := by
  constructor
  · simp [host_data, dataSizeElements]
  · intro i hi
    simp [host_data, List.getElem?_map, List.getElem?_range hi]

/-- Witness for C7 at the concrete index 205: element 205 is `(205 % 100) + 0.1`. -/
theorem host_data_seeded_witness :
    host_data[205]? = some (((205 % 100 : ℕ) : ℝ) + 0.1) :=
  host_data_seeded.2 205 (by decide)

/-- C10: each work item writes only its own buffer element: a work item whose
global id is at least the element count leaves the buffer entirely unchanged;
every element other than `id` is unchanged; the element at `id` (when in
range) becomes a function of only the input at `id` and `id` itself; and the
buffer's length never changes. -/
theorem kernel_frame (niter count : ℕ) (data : List ℝ) (id j : ℕ) :
    (count ≤ id → applyItem niter count data id = data) ∧
    (j ≠ id → readAt (applyItem niter count data id) j = readAt data j) ∧
    (id < count → id < data.length →
      readAt (applyItem niter count data id) id = kernelIter id niter 0 (readAt data id)) ∧
    (applyItem niter count data id).length = data.length := by
  refine ⟨?_, ?_, ?_, ?_⟩
  · intro h
    simp [applyItem, Nat.not_lt.mpr h]
  · intro hj
    unfold applyItem
    by_cases hc : id < count
    · simp only [hc, if_true]
      exact readAt_set_ne data id j _ (fun h => hj h.symm)
    · simp [hc]
  · intro hc hlen
    simp [applyItem, hc, readAt, List.getElem?_set_self hlen]
  · unfold applyItem
    by_cases hc : id < count <;> simp [hc]

/-- Witness for C10 at concrete inputs: an out-of-range work item (id 5,
count 3) leaves `[5, 6, 7]` unchanged; work item 1 leaves element 0 alone and
maps element 1 through the recurrence. -/
theorem kernel_frame_witness :
    applyItem 1000 3 [(5 : ℝ), 6, 7] 5 = [(5 : ℝ), 6, 7] ∧
    readAt (applyItem 1000 3 [(5 : ℝ), 6, 7] 1) 0 = readAt [(5 : ℝ), 6, 7] 0 ∧
    readAt (applyItem 1000 3 [(5 : ℝ), 6, 7] 1) 1 = kernelIter 1 1000 0 (readAt [(5 : ℝ), 6, 7] 1) :=
  ⟨(kernel_frame 1000 3 [(5 : ℝ), 6, 7] 5 0).1 (by decide),
   (kernel_frame 1000 3 [(5 : ℝ), 6, 7] 1 0).2.1 (by decide),
   (kernel_frame 1000 3 [(5 : ℝ), 6, 7] 1 0).2.2.1 (by decide) (by decide)⟩

/-! ## Lemmas about the runner loop -/

theorem runLoop_all_ok (b : DeviceBackend) (idx : ℕ)
    (hq : ∀ k, b.enqueueErr k = CL_SUCCESS) (hf : ∀ k, b.finishErr k = CL_SUCCESS) :
    ∀ (fuel k : ℕ), runLoop b idx k fuel = ([], none) := by
  intro fuel
  induction fuel with
  | zero => intro k; rfl
  | succ fu ih => intro k; simp [runLoop, hq k, hf k, ih (k + 1)]

/-! ## Concrete environments used as witnesses and counterexamples -/

/-- Two platforms, neither of which yields a matching GPU: one non-Intel, one
Intel reporting `CL_DEVICE_NOT_FOUND`. -/
def envNoGpus : Env :=
  ⟨0, 2, 0, [⟨"NVIDIA Corporation", 0, 1, 0, [3]⟩,
    ⟨"Intel(R) Corporation", CL_DEVICE_NOT_FOUND, 0, 0, []⟩]⟩

/-- One Intel platform with two GPUs. -/
def envTwoGpus : Env :=
  ⟨0, 1, 0, [⟨"Intel(R) Corporation", 0, 2, 0, [10, 11]⟩]⟩

/-- One Intel platform whose `clGetDeviceIDs` list query fails with `-5`
after a successful count query reporting one device. -/
def envListQueryFails : Env :=
  ⟨0, 1, 0, [⟨"Intel(R) Corporation", 0, 1, -5, [10]⟩]⟩

/-- The platform list query fails with `-3` after a successful count query. -/
def envPlatListFails : Env :=
  ⟨0, 1, -3, [⟨"Intel(R) Corporation", 0, 1, 0, [10]⟩]⟩

/-! ## Claims C1, C4, C5, C6, C8, C9 -/

/-- C1 (code evaluated at the failing input): with two discovered devices
where device 0's `clBuildProgram` fails and device 1's backend is healthy,
device 0's runner does dump the compiler build log and then throws
`clBuildProgram failed with error code -11` out of its thread function —
and since an exception escaping a `std::thread` callable calls
`std::terminate`, the whole process aborts, device 1's still-running loop
included. The claim's isolation guarantee does not hold. -/
theorem build_failure_aborts_whole_process :
    run_load_on_device bBuildFail 0 5 =
      ([Ev.startLoad 0 "dev-buildfail", Ev.buildLogDump 0 "error: kernel did not compile"],
        RunnerExit.exception ("clBuildProgram", -11)) ∧
    (run_load_on_device bAllOk 1 5).2 = RunnerExit.running ∧
    processAborted [run_load_on_device bBuildFail 0 5, run_load_on_device bAllOk 1 5] = true :=
  ⟨rfl, rfl, rfl⟩

/-- C4: when the platform queries succeed but the matching-vendor filter
yields zero devices, `main` reports "No Intel GPUs found via OpenCL." and
exits with status 1, with no worker thread started. -/
theorem no_matching_devices_exit_one (e : Env) (ws : List EnumEv)
    (hc : e.platformCountErr = CL_SUCCESS) (hn : e.numPlatforms ≠ 0)
    (hl : e.platformListErr = CL_SUCCESS)
    (he : enumeratePlatforms 0 e.platforms = .ok ([], ws)) :
    runMain e = MainOutcome.exitNoGpus ∧
    mainMessage (runMain e) = some "No Intel GPUs found via OpenCL." ∧
    earlyExitCode (runMain e) = some 1 ∧
    threadsStarted (runMain e) = 0 := by
  have h : runMain e = MainOutcome.exitNoGpus := by
    simp [runMain, hc, hn, hl, he, check_cl_error]
  exact ⟨h, by rw [h]; rfl, by rw [h]; rfl, by rw [h]; rfl⟩

/-- Witness for C4 at a concrete environment: two platforms, no matching GPU. -/
theorem no_matching_devices_exit_one_witness :
    runMain envNoGpus = MainOutcome.exitNoGpus ∧
    mainMessage (runMain envNoGpus) = some "No Intel GPUs found via OpenCL." ∧
    earlyExitCode (runMain envNoGpus) = some 1 ∧
    threadsStarted (runMain envNoGpus) = 0 :=
  no_matching_devices_exit_one envNoGpus [] rfl (by decide) rfl rfl

/-- C5: a dispatch or completion-wait failure in the steady-state loop is
handled by `break`, not by an exception: (1) whenever the loop exits it has
logged exactly the one failing operation's error and retried nothing;
(2) with a successful setup the runner never throws, so the rest of the
program is unaffected; (3) in the mocked scenario — first dispatch accepted,
first `clFinish` fails — the runner logs the failure and exits its loop
after exactly one completed dispatch cycle, returning normally. -/
theorem dispatch_failure_nonfatal :
    (∀ (b : DeviceBackend) (idx k fuel : ℕ) (evs : List Ev) (n : ℕ),
        runLoop b idx k fuel = (evs, some n) →
        ∃ er, er ≠ CL_SUCCESS ∧
          (evs = [Ev.enqueueFailMsg idx er] ∨ evs = [Ev.finishFailMsg idx er])) ∧
    (∀ (b : DeviceBackend) (idx fuel : ℕ), setupOk b →
        ∀ f, (run_load_on_device b idx fuel).2 ≠ RunnerExit.exception f) ∧
    (∀ (b : DeviceBackend) (idx fuel : ℕ), setupOk b →
        b.createQueuePropsErr = CL_SUCCESS →
        b.enqueueErr 0 = CL_SUCCESS → b.finishErr 0 ≠ CL_SUCCESS →
        run_load_on_device b idx (fuel + 1) =
          ([Ev.startLoad idx b.deviceName, Ev.enterLoop idx,
            Ev.finishFailMsg idx (b.finishErr 0), Ev.exitLoopMsg idx, Ev.cleanupMsg idx],
            RunnerExit.loopExit 1)) := by
  refine ⟨?_, ?_, ?_⟩
  · intro b idx k fuel
    induction fuel generalizing k with
    | zero => intro evs n h; simp [runLoop] at h
    | succ fu ih =>
      intro evs n h
      simp only [runLoop] at h
      by_cases he : b.enqueueErr k ≠ CL_SUCCESS
      · rw [if_pos he, Prod.mk.injEq] at h
        obtain ⟨rfl, -⟩ := h
        exact ⟨b.enqueueErr k, he, Or.inl rfl⟩
      · rw [if_neg he] at h
        by_cases hf : b.finishErr k ≠ CL_SUCCESS
        · rw [if_pos hf, Prod.mk.injEq] at h
          obtain ⟨rfl, -⟩ := h
          exact ⟨b.finishErr k, hf, Or.inr rfl⟩
        · rw [if_neg hf] at h
          exact ih (k + 1) evs n h
  · intro b idx fuel hs f
    obtain ⟨h1, hq, h3, h4, h5, h6, h7, h8⟩ := hs
    by_cases hp : b.createQueuePropsErr = CL_SUCCESS
    · simp only [run_load_on_device, check_cl_error, h1, h3, h4, h5, h6, h7, h8, hp]
      rcases hrl : runLoop b idx 0 fuel with ⟨levs, ob⟩
      cases ob <;> simp [hrl]
    · rcases hq with hq | hq
      · exact absurd hq hp
      · simp only [run_load_on_device, check_cl_error, h1, h3, h4, h5, h6, h7, h8, hp, hq]
        rcases hrl : runLoop b idx 0 fuel with ⟨levs, ob⟩
        cases ob <;> simp [hrl]
  · intro b idx fuel hs hp he0 hf0
    obtain ⟨h1, -, h3, h4, h5, h6, h7, h8⟩ := hs
    simp [run_load_on_device, runLoop, check_cl_error, h1, hp, h3, h4, h5, h6, h7, h8, he0, hf0]

/-- Witness for C5 at concrete inputs: the `bFinishFail` backend (dispatch
accepted, first `clFinish` fails with `-36`). -/
theorem dispatch_failure_nonfatal_witness :
    (∃ er, er ≠ CL_SUCCESS ∧
      (([Ev.finishFailMsg 7 (-36)] : List Ev) = [Ev.enqueueFailMsg 7 er] ∨
        ([Ev.finishFailMsg 7 (-36)] : List Ev) = [Ev.finishFailMsg 7 er])) ∧
    (run_load_on_device bFinishFail 0 3).2 ≠ RunnerExit.exception ("clCreateContext", -1) ∧
    run_load_on_device bFinishFail 0 3 =
      ([Ev.startLoad 0 "dev-finfail", Ev.enterLoop 0, Ev.finishFailMsg 0 (-36),
        Ev.exitLoopMsg 0, Ev.cleanupMsg 0], RunnerExit.loopExit 1) :=
  ⟨dispatch_failure_nonfatal.1 bFinishFail 7 0 3 [Ev.finishFailMsg 7 (-36)] 1 (by decide),
   dispatch_failure_nonfatal.2.1 bFinishFail 0 3 (by decide) ("clCreateContext", -1),
   dispatch_failure_nonfatal.2.2 bFinishFail 0 2 (by decide) rfl rfl (by decide)⟩

/-- C6: if the preferred `clCreateCommandQueueWithProperties` call fails but
the legacy `clCreateCommandQueue` succeeds (and the rest of the backend is
healthy), the runner proceeds through setup into the steady-state loop: the
only observable difference is the logged fallback notice, and the loop keeps
running. -/
theorem queue_fallback_proceeds (b : DeviceBackend) (idx fuel : ℕ)
    (h1 : b.createContextErr = CL_SUCCESS)
    (hp : b.createQueuePropsErr ≠ CL_SUCCESS)
    (hl : b.createQueueLegacyErr = CL_SUCCESS)
    (h3 : b.createProgramErr = CL_SUCCESS) (h4 : b.buildProgramErr = CL_SUCCESS)
    (h5 : b.createKernelErr = CL_SUCCESS) (h6 : b.createBufferErr = CL_SUCCESS)
    (h7 : b.setArgBufferErr = CL_SUCCESS) (h8 : b.setArgCountErr = CL_SUCCESS)
    (hq : ∀ k, b.enqueueErr k = CL_SUCCESS) (hf : ∀ k, b.finishErr k = CL_SUCCESS) :
    run_load_on_device b idx fuel =
      ([Ev.startLoad idx b.deviceName, Ev.queueFallback idx b.createQueuePropsErr,
        Ev.enterLoop idx], RunnerExit.running) := by
  simp [run_load_on_device, check_cl_error, h1, hp, hl, h3, h4, h5, h6, h7, h8,
    runLoop_all_ok b idx hq hf]

/-- Witness for C6 at a concrete backend: preferred queue creation fails with
`-35`, legacy path succeeds, and the runner is still looping. -/
theorem queue_fallback_proceeds_witness :
    run_load_on_device bQueueFallback 0 4 =
      ([Ev.startLoad 0 "dev-fallback", Ev.queueFallback 0 (-35),
        Ev.enterLoop 0], RunnerExit.running) :=
  queue_fallback_proceeds bQueueFallback 0 4 rfl (by decide) rfl rfl rfl rfl rfl rfl rfl
    (fun _ => rfl) (fun _ => rfl)

/-- C8: whenever at least one matching device is discovered, `main` starts
exactly one runner thread per discovered `(platform, device)` pair — runner
`i` handling pair `i` — and the context, queue, and buffer each runner
creates for itself are distinct from every other runner's. -/
theorem one_thread_per_device (e : Env) (pairs : List (ℕ × ℕ))
    (h : runMain e = MainOutcome.spawned pairs) :
    threadsStarted (runMain e) = pairs.length ∧
    spawnedRunners (runMain e) = pairs.enum ∧
    (∀ i j : ℕ, i ≠ j →
      (runnerResources i).ctx ≠ (runnerResources j).ctx ∧
      (runnerResources i).queue ≠ (runnerResources j).queue ∧
      (runnerResources i).buffer ≠ (runnerResources j).buffer) := by
  refine ⟨by rw [h]; rfl, by rw [h]; rfl, ?_⟩
  intro i j hij
  refine ⟨?_, ?_, ?_⟩ <;> simp [runnerResources, Prod.ext_iff, hij]

/-- Witness for C8 at a concrete environment: one Intel platform with two
GPUs spawns exactly two runner threads with disjoint resources. -/
theorem one_thread_per_device_witness :
    threadsStarted (runMain envTwoGpus) = 2 ∧
    spawnedRunners (runMain envTwoGpus) = [(0, (0, 10)), (1, (0, 11))] ∧
    (runnerResources 0).ctx ≠ (runnerResources 1).ctx :=
  ⟨(one_thread_per_device envTwoGpus [(0, 10), (0, 11)] (by decide)).1,
   (one_thread_per_device envTwoGpus [(0, 10), (0, 11)] (by decide)).2.1,
   ((one_thread_per_device envTwoGpus [(0, 10), (0, 11)] (by decide)).2.2 0 1
     (by decide)).1⟩

/-- C9 counterexample: the claim says a failure of the per-platform device
query is never a fatal exit of the whole enumeration — but when the
`clGetDeviceIDs` list query (the second per-platform device query) fails,
`check_cl_error` throws, `main`'s catch handler runs, and the process exits
with status 1 without enumerating further: a fatal exit. -/
theorem device_list_query_failure_is_fatal :
    runMain envListQueryFails = MainOutcome.exitCaught ("clGetDeviceIDs (list)", -5) ∧
    earlyExitCode (runMain envListQueryFails) = some 1 ∧
    threadsStarted (runMain envListQueryFails) = 0 :=
  ⟨rfl, rfl, rfl⟩

/-- C9 (amended): a failure of the per-platform device-count query (other
than `CL_DEVICE_NOT_FOUND`, which is silently skipped) is logged as a
warning and causes only that platform to be skipped, enumeration continuing
with the remaining platforms; a failure of the global platform-list query
(like one of the per-platform device-list query) is fatal: the process exits
with status 1. -/
theorem enumeration_error_handling :
    (∀ (k : ℕ) (p : PlatformInfo) (ps : List PlatformInfo),
        vendorMatches p.vendor = true →
        p.devCountErr ≠ CL_SUCCESS → p.devCountErr ≠ CL_DEVICE_NOT_FOUND →
        enumeratePlatforms k (p :: ps) =
          (match enumeratePlatforms (k + 1) ps with
            | .error f => .error f
            | .ok (rest, ws) =>
              .ok (rest, EnumEv.warnDevCount p.vendor p.devCountErr :: ws))) ∧
    (∀ e : Env, e.platformCountErr = CL_SUCCESS → e.numPlatforms ≠ 0 →
        e.platformListErr ≠ CL_SUCCESS →
        runMain e = MainOutcome.exitCaught ("clGetPlatformIDs", e.platformListErr) ∧
        earlyExitCode (runMain e) = some 1) := by
  constructor
  · intro k p ps hv hc hnf
    simp only [enumeratePlatforms, enumPlatform, hv, hc, hnf, if_true, if_false,
      ite_true, ite_false, if_neg, if_pos]
    rcases h2 : enumeratePlatforms (k + 1) ps with f | ⟨rest, ws⟩ <;> simp [hv, hc, hnf]
  · intro e hc hn hl
    have h : runMain e = MainOutcome.exitCaught ("clGetPlatformIDs", e.platformListErr) := by
      simp [runMain, hc, hn, hl, check_cl_error]
    exact ⟨h, by rw [h]; rfl⟩

/-- Witness for the amended C9 at concrete inputs: a warned-and-skipped
count-query failure, and a fatal platform-list failure. -/
theorem enumeration_error_handling_witness :
    enumeratePlatforms 0 [⟨"Intel(R) Corporation", -2, 0, 0, []⟩] =
      (match enumeratePlatforms 1 ([] : List PlatformInfo) with
        | .error f => .error f
        | .ok (rest, ws) =>
          .ok (rest, EnumEv.warnDevCount "Intel(R) Corporation" (-2) :: ws)) ∧
    runMain envPlatListFails = MainOutcome.exitCaught ("clGetPlatformIDs", -3) ∧
    earlyExitCode (runMain envPlatListFails) = some 1 :=
  ⟨enumeration_error_handling.1 0 ⟨"Intel(R) Corporation", -2, 0, 0, []⟩ [] (by decide)
      (by decide) (by decide),
   (enumeration_error_handling.2 envPlatListFails rfl (by decide) (by decide)).1,
   (enumeration_error_handling.2 envPlatListFails rfl (by decide) (by decide)).2⟩

end GpuLoadCl
